import Mathlib

/-!
Verification of the conversation-session store of the
Intelligent-Customer-Service frontend (`src/stores/chat` Pinia store,
`useChatStore`).  The store's reactive refs become a record `ChatStore`;
the store's actions become pure state-transformers.  Effects that in the
browser are asynchronous (WebSocket frames, REST responses, the
best-effort `endSession` call) are represented by explicit events and
outcome parameters, so that every sequence of operations and adapter
events is a `List Op` folded over a step function.

`Date.now()` is modelled by an explicit `now : Nat` parameter to each
operation that reads the clock; `Math.random()`-based session-id minting
becomes an explicit `mint : String` parameter.  Callback invocations
(`onToken` / `onDone` / `onError`) are returned as a list of
`CallbackEvent`s rather than executed.
-/

namespace ChatClient

/-- A role of a chat message: `'user'` or `'assistant'` in the source. -/
inductive Role where
  | user
  | assistant
deriving DecidableEq, Repr

/-- One entry of `messages.value`.  In the JS objects, absent fields
(`streaming` on user messages, `intent` / `sources` except where set)
read as `undefined`, modelled as `false` / `none`. -/
structure Message where
  role : Role
  content : String
  id : Nat
  streaming : Bool := false
  intent : Option String := none
  sources : Option (List String) := none
deriving DecidableEq, Repr

/-- The reactive refs of `useChatStore`. -/
structure ChatStore where
  messages : List Message
  sessionId : Option String
  isLoading : Bool
  isStreaming : Bool
  currentUser : Option String
  accessToken : Option String
  streamingMessage : String
deriving DecidableEq, Repr

/-- Initial state of the refs (fresh tab, nothing in local storage). -/
def initialStore : ChatStore :=
  { messages := []
    sessionId := none
    isLoading := false
    isStreaming := false
    currentUser := none
    accessToken := none
    streamingMessage := "" }

/-- An inbound WebSocket frame, after `JSON.parse`, discriminated on
`data.type`.  The `done` frame also carries metadata (`intent`, …)
on the wire; the handler reads only `data.session_id`, so the model
keeps `intent` in the frame to state what the handler does with it. -/
inductive Frame where
  | token (content : String)
  | done (session_id : String) (intent : Option String)
  | error (detail : String)
deriving DecidableEq, Repr

/-- A callback invocation performed by the store's streaming handlers. -/
inductive CallbackEvent where
  | onToken (fragment : String)
  | onDone
  | onError (detail : String)
deriving DecidableEq, Repr

/-- `messages.value.find(m => m.id === i)`: first message with id `i`. -/
def findMsg (msgs : List Message) (i : Nat) : Option Message :=
  msgs.find? (fun m => m.id = i)

/-- In-place mutation of the message found by
`messages.value.find(m => m.id === i)`: rewrite the first message whose
id is `i`, leave the list unchanged when none matches (`if (lastMsg)`). -/
def updateFirst (msgs : List Message) (i : Nat) (f : Message → Message) :
    List Message :=
  match msgs with
  | [] => []
  | m :: rest =>
      if m.id = i then f m :: rest else m :: updateFirst rest i f

/-- Drop leading characters satisfying `Char.isWhitespace`. -/
def trimLeftChars : List Char → List Char
  | [] => []
  | c :: cs => if c.isWhitespace then trimLeftChars cs else c :: cs

/-- JS `String.prototype.trim()` (`text.trim()` in the source): strip
leading and trailing whitespace.  Modelled structurally over the
character list so that it evaluates on concrete inputs. -/
def jsTrim (s : String) : String :=
  String.mk (trimLeftChars ((trimLeftChars s.data.reverse).reverse))

/-- `sessionId.value || generateSessionId()`: JS `||` takes the minted id
when the current value is falsy (`null` or the empty string). -/
def sessionFalsy : Option String → Bool
  | none => true
  | some s => s = ""

/-- The synchronous prefix of `sendMessageStream(text, …)` (everything
executed before the WebSocket delivers any event): the empty-trim guard,
the two `messages.value.push` calls, `isStreaming.value = true`,
`streamingMessage.value = ''`, and the session-id resolution
`sessionId.value || generateSessionId()` performed while building the
URL.  Returns the new state and `some aiMsgId` when a connection is
opened, `none` when the guard rejected the call. -/
def sendMessageStreamStart (s : ChatStore) (text : String) (now : Nat)
    (mint : String) : ChatStore × Option Nat :=
  if jsTrim text = "" then (s, none)
  else
    let userMsg : Message := { role := .user, content := text, id := now }
    let aiMsgId := now + 1
    let aiMsg : Message :=
      { role := .assistant, content := "", id := aiMsgId, streaming := true }
    let s1 : ChatStore :=
      { s with
        messages := s.messages ++ [userMsg, aiMsg]
        isStreaming := true
        streamingMessage := "" }
    let s2 : ChatStore :=
      if sessionFalsy s1.sessionId then { s1 with sessionId := some mint }
      else s1
    (s2, some aiMsgId)

/-- The `ws.onmessage` handler of `sendMessageStream`, for the turn whose
placeholder has id `aiMsgId`.  Returns the new state and the callback
invocations it performs. -/
def onMessage (aiMsgId : Nat) (s : ChatStore) (f : Frame) :
    ChatStore × List CallbackEvent :=
  match f with
  | .token c =>
      let sm := s.streamingMessage ++ c
      let msgs := updateFirst s.messages aiMsgId
        (fun m => { m with content := sm })
      ({ s with streamingMessage := sm, messages := msgs },
       [.onToken c])
  | .done sid _intent =>
      let msgs := updateFirst s.messages aiMsgId
        (fun m => { m with streaming := false })
      ({ s with sessionId := some sid, messages := msgs,
                isStreaming := false },
       [.onDone])
  | .error d =>
      ({ s with isStreaming := false }, [.onError d])

/-- The `ws.onerror` handler of `sendMessageStream` (transport-level
failure): sets `isStreaming` to false and invokes the error callback
with the fixed diagnostic; it does not touch `messages`. -/
def onTransportError (s : ChatStore) : ChatStore × List CallbackEvent :=
  ({ s with isStreaming := false }, [.onError "WebSocket 连接失败"])

/-- The fields of the awaited `chatAPI.sendMessage` response that
`sendMessageRest` reads. -/
structure RestResponse where
  session_id : String
  reply : String
  intent : Option String
  rag_sources : Option (List String)
deriving DecidableEq, Repr

/-- The synchronous prefix of `sendMessageRest(text)`: empty-trim guard,
push of the user message with `id: Date.now()`, `isLoading.value =
true`.  Returns `none` as second component when the guard rejected. -/
def sendMessageRestStart (s : ChatStore) (text : String) (now : Nat) :
    ChatStore × Bool :=
  if jsTrim text = "" then (s, false)
  else
    ({ s with
        messages := s.messages ++ [{ role := .user, content := text, id := now }]
        isLoading := true }, true)

/-- The continuation of `sendMessageRest` after the awaited response
resolves: adopt `res.session_id`, push the complete assistant message
with `id: Date.now()` (at response time), and run the `finally` block
(`isLoading.value = false`). -/
def sendMessageRestDone (s : ChatStore) (res : RestResponse) (now : Nat) :
    ChatStore :=
  { s with
      sessionId := some res.session_id
      messages := s.messages ++
        [{ role := .assistant, content := res.reply, id := now,
           intent := res.intent, sources := res.rag_sources }]
      isLoading := false }

/-- The continuation of `sendMessageRest` when the awaited call rejects:
only the `finally` block runs (`isLoading.value = false`); the failure
propagates to the caller. -/
def sendMessageRestFail (s : ChatStore) : ChatStore :=
  { s with isLoading := false }

/-- `clearConversation()`.  When a session id is truthy the store awaits
`chatAPI.endSession(...)` inside `try { … } catch {}` — the catch block
is empty, so the outcome of that call (`endSessionOk`) has no effect on
the result and no failure escapes.  Then the three conversation refs are
reset. -/
def clearConversation (s : ChatStore) (endSessionOk : Bool) : ChatStore :=
  { s with messages := [], sessionId := none, streamingMessage := "" }

/-- `logout()`. -/
def logout (s : ChatStore) : ChatStore :=
  { s with accessToken := none, currentUser := none,
           messages := [], sessionId := none }

/-- `login(username, password)` after a successful response carrying
`access_token` `tok` and `user` `u`. -/
def loginOk (s : ChatStore) (tok : String) (u : String) : ChatStore :=
  { s with accessToken := some tok, currentUser := some u }

/-- One store operation or adapter event, with its clock reading and
nondeterministic inputs made explicit. -/
inductive Op where
  | streamStart (text : String) (now : Nat) (mint : String)
  | frame (aiMsgId : Nat) (f : Frame)
  | transportFail
  | restStart (text : String) (now : Nat)
  | restDone (res : RestResponse) (now : Nat)
  | restFail
  | clear (endSessionOk : Bool)
  | doLogout
  | doLogin (tok : String) (u : String)
deriving DecidableEq, Repr

/-- The state transition of one operation (callback events dropped). -/
def step (s : ChatStore) : Op → ChatStore
  | .streamStart text now mint => (sendMessageStreamStart s text now mint).1
  | .frame aiMsgId f => (onMessage aiMsgId s f).1
  | .transportFail => (onTransportError s).1
  | .restStart text now => (sendMessageRestStart s text now).1
  | .restDone res now => sendMessageRestDone s res now
  | .restFail => sendMessageRestFail s
  | .clear ok => clearConversation s ok
  | .doLogout => logout s
  | .doLogin tok u => loginOk s tok u

/-- Run a sequence of operations from a state. -/
def run (s : ChatStore) (ops : List Op) : ChatStore :=
  ops.foldl step s

/-- Number of messages in the log with `streaming = true`. -/
def countStreaming (msgs : List Message) : Nat :=
  (msgs.filter (fun m => m.streaming)).length

/-- The ids of the messages in the log, in order. -/
def idsOf (s : ChatStore) : List Nat :=
  s.messages.map Message.id

/-- Deliver a sequence of `token` frames, in order, to the turn whose
placeholder id is `i`. -/
def applyTokens (i : Nat) (s : ChatStore) (ts : List String) : ChatStore :=
  ts.foldl (fun st t => (onMessage i st (.token t)).1) s

/-- The concatenation `t1 ++ t2 ++ ... ++ tn` of a fragment list. -/
def concatAll : List String → String
  | [] => ""
  | t :: ts => t ++ concatAll ts

/-- States reachable from the fresh store by operation sequences in
which `sendMessageStream` is invoked only while no message of the log
is still marked `streaming` (the discipline the UI is meant to
enforce). -/
inductive GuardedReach : ChatStore → Prop where
  | start : GuardedReach initialStore
  | next (s : ChatStore) (op : Op) (hs : GuardedReach s)
      (hguard : ∀ text now mint, op = .streamStart text now mint →
        countStreaming s.messages = 0) :
      GuardedReach (step s op)

/-- The `Date.now()` reading an operation uses for the ids it mints,
when it mints any. -/
def opTime : Op → Option Nat
  | .streamStart _ now _ => some now
  | .restStart _ now => some now
  | .restDone _ now => some now
  | _ => none

/-- Clock discipline: every id-minting operation reads a clock value at
least `t`, and later ones each read at least 2 more than the previous
one (2 because `sendMessageStream` uses both `now` and `now + 1`). -/
def spaced (t : Nat) : List Op → Bool
  | [] => true
  | op :: rest =>
      match opTime op with
      | none => spaced t rest
      | some n => decide (t ≤ n) && spaced (n + 2) rest

/-- The spec's scenario: input `"如何申请退款？"` at clock 100 (so the
placeholder id is 101), then scripted frames `token("您")`,
`token("好")`, `done` with server session id `"srv-1"` and wire
metadata `intent = "after_sales"`. -/
def scenarioRun : ChatStore :=
  run initialStore
    [.streamStart "如何申请退款？" 100 "sess_local1",
     .frame 101 (.token "您"),
     .frame 101 (.token "好"),
     .frame 101 (.done "srv-1" (some "after_sales"))]

/-- A store with a turn already in flight, reached by a first
`sendMessageStream` call from the fresh store. -/
def inFlightStore : ChatStore :=
  (sendMessageStreamStart initialStore "hi" 0 "sess_a").1

theorem countStreaming_cons (m : Message) (rest : List Message) :
    countStreaming (m :: rest) =
      (if m.streaming then 1 else 0) + countStreaming rest := by
  by_cases h : m.streaming = true <;>
    simp [countStreaming, List.filter_cons, h, Nat.add_comm]

theorem countStreaming_append (a b : List Message) :
    countStreaming (a ++ b) = countStreaming a + countStreaming b := by
  simp [countStreaming, List.filter_append]

theorem updateFirst_map_id (msgs : List Message) (i : Nat)
    (f : Message → Message) (h : ∀ m, (f m).id = m.id) :
    (updateFirst msgs i f).map Message.id = msgs.map Message.id := by
  induction msgs with
  | nil => rfl
  | cons m rest ih =>
      by_cases hm : m.id = i
      · simp [updateFirst, hm, h m]
      · simp [updateFirst, hm, ih]

theorem findMsg_updateFirst (msgs : List Message) (i : Nat)
    (f : Message → Message) (h : ∀ m, (f m).id = m.id) :
    findMsg (updateFirst msgs i f) i = (findMsg msgs i).map f := by
  induction msgs with
  | nil => rfl
  | cons m rest ih =>
      by_cases hm : m.id = i
      · simp [updateFirst, findMsg, hm, h m]
      · simp [updateFirst, findMsg, hm]
        simpa [findMsg] using ih

theorem countStreaming_updateFirst_eq (msgs : List Message) (i : Nat)
    (f : Message → Message) (h : ∀ m, (f m).streaming = m.streaming) :
    countStreaming (updateFirst msgs i f) = countStreaming msgs := by
  induction msgs with
  | nil => rfl
  | cons m rest ih =>
      by_cases hm : m.id = i
      · simp [updateFirst, hm, countStreaming_cons, h m]
      · simp [updateFirst, hm, countStreaming_cons, ih]

theorem countStreaming_updateFirst_le (msgs : List Message) (i : Nat)
    (f : Message → Message) (h : ∀ m, (f m).streaming = false) :
    countStreaming (updateFirst msgs i f) ≤ countStreaming msgs := by
  induction msgs with
  | nil => exact Nat.le_refl _
  | cons m rest ih =>
      by_cases hm : m.id = i
      · simp [updateFirst, hm, countStreaming_cons, h m]
      · have h1 : updateFirst (m :: rest) i f = m :: updateFirst rest i f := by
          simp [updateFirst, hm]
        rw [h1, countStreaming_cons, countStreaming_cons]
        exact Nat.add_le_add_left ih _

theorem streamStart_messages (s : ChatStore) (text : String) (now : Nat)
    (mint : String) (h : ¬ jsTrim text = "") :
    (sendMessageStreamStart s text now mint).1.messages =
      s.messages ++
        [{ role := .user, content := text, id := now },
         { role := .assistant, content := "", id := now + 1,
           streaming := true }] := by
  rw [sendMessageStreamStart]
  simp only [h, if_false, ite_false]
  split <;> rfl

theorem streamStart_isStreaming (s : ChatStore) (text : String) (now : Nat)
    (mint : String) (h : ¬ jsTrim text = "") :
    (sendMessageStreamStart s text now mint).1.isStreaming = true := by
  rw [sendMessageStreamStart]
  simp only [h, if_false, ite_false]
  split <;> rfl

theorem streamStart_streamingMessage (s : ChatStore) (text : String)
    (now : Nat) (mint : String) (h : ¬ jsTrim text = "") :
    (sendMessageStreamStart s text now mint).1.streamingMessage = "" := by
  rw [sendMessageStreamStart]
  simp only [h, if_false, ite_false]
  split <;> rfl

theorem streamStart_snd (s : ChatStore) (text : String) (now : Nat)
    (mint : String) (h : ¬ jsTrim text = "") :
    (sendMessageStreamStart s text now mint).2 = some (now + 1) := by
  rw [sendMessageStreamStart]
  simp only [h, if_false, ite_false]

theorem applyTokens_spec (i : Nat) (ts : List String) :
    ∀ (s : ChatStore) (m : Message), findMsg s.messages i = some m →
    m.content = s.streamingMessage →
    findMsg (applyTokens i s ts).messages i =
      some { m with content := s.streamingMessage ++ concatAll ts } ∧
    (applyTokens i s ts).streamingMessage =
      s.streamingMessage ++ concatAll ts := by
  induction ts with
  | nil =>
      intro s m hfind hc
      have hm : ({ m with content := s.streamingMessage ++ concatAll [] }
          : Message) = m := by
        cases m with
        | mk role content id streaming intent sources =>
            simp only [concatAll] at hc ⊢
            simp [hc]
      refine ⟨?_, by simp [applyTokens, concatAll]⟩
      rw [hm]
      exact hfind
  | cons t ts ih =>
      intro s m hfind hc
      have hfind' : findMsg (onMessage i s (.token t)).1.messages i =
          some { m with content := s.streamingMessage ++ t } := by
        have := findMsg_updateFirst s.messages i
          (fun m => { m with content := s.streamingMessage ++ t })
          (fun m => rfl)
        simp only [onMessage]
        rw [this, hfind]
        rfl
      have hstep := ih (onMessage i s (.token t)).1
        { m with content := s.streamingMessage ++ t } hfind' rfl
      have hfold : applyTokens i s (t :: ts) =
          applyTokens i (onMessage i s (.token t)).1 ts := rfl
      have hcat : (concatAll (t :: ts) : String) = t ++ concatAll ts := rfl
      rw [hfold, hcat, ← String.append_assoc]
      exact hstep

/-- C5: for every text that is non-empty after trimming,
`sendMessageStream` synchronously (before any network activity)
appends exactly two messages — first the user message carrying the
text, then the assistant placeholder with empty content and
`streaming = true` — sets `isStreaming` to true, and returns a
connection handle for the placeholder. -/
theorem c5_appends_two_messages (s : ChatStore) (text : String)
    (now : Nat) (mint : String) (h : jsTrim text ≠ "") :
    (sendMessageStreamStart s text now mint).1.messages =
      s.messages ++
        [{ role := .user, content := text, id := now },
         { role := .assistant, content := "", id := now + 1,
           streaming := true }] ∧
    (sendMessageStreamStart s text now mint).1.isStreaming = true ∧
    (sendMessageStreamStart s text now mint).2 = some (now + 1) :=
  ⟨streamStart_messages s text now mint h,
   streamStart_isStreaming s text now mint h,
   streamStart_snd s text now mint h⟩

/-- Witness for C5 at the fresh store with text `"你好"` and clock 42. -/
theorem c5_witness :
    (sendMessageStreamStart initialStore "你好" 42 "sess_w").1.messages =
      initialStore.messages ++
        [{ role := .user, content := "你好", id := 42 },
         { role := .assistant, content := "", id := 42 + 1,
           streaming := true }] ∧
    (sendMessageStreamStart initialStore "你好" 42 "sess_w").1.isStreaming
      = true ∧
    (sendMessageStreamStart initialStore "你好" 42 "sess_w").2 =
      some (42 + 1) :=
  c5_appends_two_messages initialStore "你好" 42 "sess_w" (by decide)

/-- C3 counterexample: calling `sendMessageStream` with non-empty text
while `isStreaming` is already true is not a no-op — the state changes
and a connection handle is returned, because the source guards only on
empty text, never on `isStreaming`. -/
theorem c3_counterexample :
    (sendMessageStreamStart { initialStore with isStreaming := true }
        "hello" 5 "sess_x").1 ≠
      { initialStore with isStreaming := true } ∧
    (sendMessageStreamStart { initialStore with isStreaming := true }
        "hello" 5 "sess_x").2 ≠ none := by
  decide

/-- C3 amended: the only silently rejected precondition is text that is
empty after trimming; such a call appends nothing, opens no connection
and leaves the store unchanged — regardless of `isStreaming`. -/
theorem c3_empty_text_noop (s : ChatStore) (text : String) (now : Nat)
    (mint : String) (h : jsTrim text = "") :
    sendMessageStreamStart s text now mint = (s, none) := by
  simp [sendMessageStreamStart, h]

/-- Witness for C3 amended: whitespace-only input on a store with a
turn in flight. -/
theorem c3_witness :
    sendMessageStreamStart { initialStore with isStreaming := true }
        "   " 5 "sess_x" =
      ({ initialStore with isStreaming := true }, none) :=
  c3_empty_text_noop { initialStore with isStreaming := true }
    "   " 5 "sess_x" (by decide)

/-- C4 counterexample: after a transport-level failure the in-flight
placeholder's `streaming` flag is not cleared — `ws.onerror` only
resets `isStreaming` and fires the error callback, leaving the
message log untouched. -/
theorem c4_counterexample :
    ¬ ((findMsg (onTransportError inFlightStore).1.messages 1).map
        Message.streaming = some false) := by
  decide

/-- C4 amended: on an inbound `error` frame or a transport-level
failure, `isStreaming` becomes false and the error callback fires
exactly once — with the frame's detail (non-empty whenever the frame
carries a non-empty detail) resp. the fixed non-empty adapter
diagnostic — while the message log, including the placeholder's
`streaming` flag, is left unchanged. -/
theorem c4_error_semantics (s : ChatStore) (aiMsgId : Nat)
    (detail : String) (hd : detail ≠ "") :
    ((onMessage aiMsgId s (.error detail)).1.isStreaming = false ∧
     (onMessage aiMsgId s (.error detail)).2 = [.onError detail] ∧
     (onMessage aiMsgId s (.error detail)).1.messages = s.messages ∧
     detail ≠ "") ∧
    ((onTransportError s).1.isStreaming = false ∧
     (onTransportError s).2 = [.onError "WebSocket 连接失败"] ∧
     ("WebSocket 连接失败" : String) ≠ "" ∧
     (onTransportError s).1.messages = s.messages) :=
  ⟨⟨rfl, rfl, rfl, hd⟩, ⟨rfl, rfl, by decide, rfl⟩⟩

/-- Witness for C4 amended at a store with a turn in flight and the
error detail `"后端异常"`. -/
theorem c4_witness :
    ((onMessage 1 inFlightStore (.error "后端异常")).1.isStreaming = false ∧
     (onMessage 1 inFlightStore (.error "后端异常")).2 =
       [.onError "后端异常"] ∧
     (onMessage 1 inFlightStore (.error "后端异常")).1.messages =
       inFlightStore.messages ∧
     ("后端异常" : String) ≠ "") ∧
    ((onTransportError inFlightStore).1.isStreaming = false ∧
     (onTransportError inFlightStore).2 =
       [.onError "WebSocket 连接失败"] ∧
     ("WebSocket 连接失败" : String) ≠ "" ∧
     (onTransportError inFlightStore).1.messages =
       inFlightStore.messages) :=
  c4_error_semantics inFlightStore 1 "后端异常" (by decide)

/-- C7: when the `done` frame for the in-flight turn arrives, the
placeholder's `streaming` flag becomes false, `isStreaming` becomes
false, the active session id becomes the server-supplied one (with no
hypothesis on the previous `sessionId`, so also when it differs from
the client-minted id used to open the connection), and the completion
callback fires once. -/
theorem c7_done_semantics (s : ChatStore) (aiMsgId : Nat) (sid : String)
    (intent : Option String) (m : Message)
    (hfind : findMsg s.messages aiMsgId = some m) :
    (onMessage aiMsgId s (.done sid intent)).1.sessionId = some sid ∧
    (onMessage aiMsgId s (.done sid intent)).1.isStreaming = false ∧
    findMsg (onMessage aiMsgId s (.done sid intent)).1.messages aiMsgId =
      some { m with streaming := false } ∧
    (onMessage aiMsgId s (.done sid intent)).2 = [.onDone] := by
  refine ⟨rfl, rfl, ?_, rfl⟩
  have h := findMsg_updateFirst s.messages aiMsgId
    (fun m => { m with streaming := false }) (fun m => rfl)
  simp only [onMessage]
  rw [h, hfind]
  rfl

/-- Witness for C7: the in-flight store (client-minted session id
`"sess_a"`) receiving `done` with the differing server id `"srv-9"`. -/
theorem c7_witness :
    (onMessage 1 inFlightStore (.done "srv-9" none)).1.sessionId =
      some "srv-9" ∧
    (onMessage 1 inFlightStore (.done "srv-9" none)).1.isStreaming =
      false ∧
    findMsg (onMessage 1 inFlightStore (.done "srv-9" none)).1.messages 1 =
      some { role := .assistant, content := "", id := 1,
             streaming := false } ∧
    (onMessage 1 inFlightStore (.done "srv-9" none)).2 = [.onDone] :=
  c7_done_semantics inFlightStore 1 "srv-9" none
    { role := .assistant, content := "", id := 1, streaming := true }
    (by decide)

/-- C8: `clearConversation` always leaves an empty message log, an
absent session id and an empty residual streaming buffer; the
best-effort end-session call's outcome does not change the result
(its failure is swallowed, never surfaced). -/
theorem c8_clear_resets (s : ChatStore) (endSessionOk : Bool) :
    (clearConversation s endSessionOk).messages = [] ∧
    (clearConversation s endSessionOk).sessionId = none ∧
    (clearConversation s endSessionOk).streamingMessage = "" ∧
    clearConversation s false = clearConversation s true :=
  ⟨rfl, rfl, rfl, rfl⟩

/-- C10: `clearConversation` leaves the auth fields (`accessToken`,
`currentUser`) and the loading flags untouched, whether or not the
end-session notification succeeds. -/
theorem c10_clear_frame (s : ChatStore) (endSessionOk : Bool) :
    (clearConversation s endSessionOk).accessToken = s.accessToken ∧
    (clearConversation s endSessionOk).currentUser = s.currentUser ∧
    (clearConversation s endSessionOk).isLoading = s.isLoading ∧
    (clearConversation s endSessionOk).isStreaming = s.isStreaming :=
  ⟨rfl, rfl, rfl, rfl⟩

/-- C1 counterexample: in the spec's scenario the final assistant
message does not carry `intent = "after_sales"` — the `done` branch of
`ws.onmessage` reads only `data.session_id` and never attaches the
frame's metadata to the message. -/
theorem c1_counterexample :
    ¬ ((scenarioRun.messages.getLast?).map Message.intent =
        some (some "after_sales")) := by
  decide

/-- C1 amended: the scenario yields a final assistant message with
content `"您好"` and `streaming = false`, leaves the active session id
`"srv-1"` and `isStreaming` false — but the message carries no intent
metadata (`intent` stays absent). -/
theorem c1_scenario :
    scenarioRun.messages.getLast? =
      some { role := .assistant, content := "您好", id := 101,
             streaming := false } ∧
    scenarioRun.sessionId = some "srv-1" ∧
    scenarioRun.isStreaming = false := by
  decide

/-- C2 counterexample: a second `sendMessageStream` call issued while
the first turn is still in flight is a reachable operation sequence
and leaves two messages with `streaming = true` — the source has no
guard against it. -/
theorem c2_counterexample :
    ¬ (countStreaming (run initialStore
        [.streamStart "hi" 0 "sess_a",
         .streamStart "again" 7 "sess_b"]).messages ≤ 1) := by
  decide

/-- C2 amended: in every state reachable by operation sequences in
which `sendMessageStream` is invoked only while no message of the log
is marked `streaming` (guarding on `isStreaming` alone is not enough,
since an `error` frame resets `isStreaming` but leaves the
placeholder's flag set), at most one message has `streaming = true`. -/
theorem c2_at_most_one_streaming (s : ChatStore) (h : GuardedReach s) :
    countStreaming s.messages ≤ 1 := by
  induction h with
  | start => decide
  | next s op hs hguard ih =>
      cases op with
      | streamStart text now mint =>
          have h0 := hguard text now mint rfl
          by_cases ht : jsTrim text = ""
          · simpa [step, sendMessageStreamStart, ht] using ih
          · have hm := streamStart_messages s text now mint ht
            show countStreaming
              (sendMessageStreamStart s text now mint).1.messages ≤ 1
            rw [hm, countStreaming_append, h0, countStreaming_cons,
              countStreaming_cons]
            simp [countStreaming]
      | frame aiMsgId f =>
          cases f with
          | token c =>
              have h1 := countStreaming_updateFirst_eq s.messages aiMsgId
                (fun m => { m with content := s.streamingMessage ++ c })
                (fun m => rfl)
              simpa [step, onMessage, h1] using ih
          | done sid intent =>
              have h1 := countStreaming_updateFirst_le s.messages aiMsgId
                (fun m => { m with streaming := false }) (fun m => rfl)
              exact le_trans h1 ih
          | error d => simpa [step, onMessage] using ih
      | transportFail => simpa [step, onTransportError] using ih
      | restStart text now =>
          by_cases ht : jsTrim text = ""
          · simpa [step, sendMessageRestStart, ht] using ih
          · show countStreaming
              (sendMessageRestStart s text now).1.messages ≤ 1
            simp only [sendMessageRestStart, ht, if_false, ite_false]
            rw [countStreaming_append]
            simpa using ih
      | restDone res now =>
          show countStreaming (sendMessageRestDone s res now).messages ≤ 1
          simp only [sendMessageRestDone]
          rw [countStreaming_append]
          simpa using ih
      | restFail => simpa [step, sendMessageRestFail] using ih
      | clear ok => simp [step, clearConversation, countStreaming]
      | doLogout => simp [step, logout, countStreaming]
      | doLogin tok u => simpa [step, loginOk] using ih

/-- Witness for C2 amended: the state after one guarded
`sendMessageStream` call from the fresh store. -/
theorem c2_witness :
    countStreaming (step initialStore
        (.streamStart "hi" 0 "sess_a")).messages ≤ 1 :=
  c2_at_most_one_streaming _
    (GuardedReach.next initialStore (.streamStart "hi" 0 "sess_a")
      GuardedReach.start (fun _ _ _ _ => by decide))

/-- C6: for every sequence of token fragments delivered in order during
one streaming turn (started on a log whose ids do not collide with the
placeholder's), the placeholder's content equals the concatenation of
the fragments, regardless of how the text was split. -/
theorem c6_split_invariance (s : ChatStore) (text : String) (now : Nat)
    (mint : String) (ts : List String) (h : jsTrim text ≠ "")
    (hfresh : ∀ m ∈ s.messages, m.id ≠ now + 1) :
    findMsg (applyTokens (now + 1)
        (sendMessageStreamStart s text now mint).1 ts).messages (now + 1) =
      some { role := .assistant, content := concatAll ts, id := now + 1,
             streaming := true } := by
  have hmsgs := streamStart_messages s text now mint h
  have hsm := streamStart_streamingMessage s text now mint h
  have hfind : findMsg (sendMessageStreamStart s text now mint).1.messages
      (now + 1) =
      some { role := .assistant, content := "", id := now + 1,
             streaming := true } := by
    unfold findMsg
    rw [hmsgs, List.find?_append]
    have hnone : s.messages.find? (fun m => m.id = now + 1) = none := by
      rw [List.find?_eq_none]
      intro m hm
      simpa using hfresh m hm
    rw [hnone]
    simp [Nat.succ_ne_self]
  have hrun := applyTokens_spec (now + 1) ts
    (sendMessageStreamStart s text now mint).1
    { role := .assistant, content := "", id := now + 1, streaming := true }
    hfind (by rw [hsm])
  rw [hrun.1, hsm]
  simp

/-- Witness for C6 with the fragment split `["您", "好", "！"]`. -/
theorem c6_witness :
    findMsg (applyTokens (0 + 1)
        (sendMessageStreamStart initialStore "hi" 0 "sess_a").1
        ["您", "好", "！"]).messages (0 + 1) =
      some { role := .assistant, content := concatAll ["您", "好", "！"],
             id := 0 + 1, streaming := true } :=
  c6_split_invariance initialStore "hi" 0 "sess_a" ["您", "好", "！"]
    (by decide) (by decide)

theorem idsOf_streamStart (s : ChatStore) (text : String) (now : Nat)
    (mint : String) (h : ¬ jsTrim text = "") :
    idsOf (sendMessageStreamStart s text now mint).1 =
      idsOf s ++ [now, now + 1] := by
  unfold idsOf
  rw [streamStart_messages s text now mint h]
  simp

theorem idsOf_restStart (s : ChatStore) (text : String) (now : Nat)
    (h : ¬ jsTrim text = "") :
    idsOf (sendMessageRestStart s text now).1 = idsOf s ++ [now] := by
  simp [idsOf, sendMessageRestStart, h]

theorem idsOf_restDone (s : ChatStore) (res : RestResponse) (now : Nat) :
    idsOf (sendMessageRestDone s res now) = idsOf s ++ [now] := by
  simp [idsOf, sendMessageRestDone]

theorem run_ids_nodup (ops : List Op) :
    ∀ (s : ChatStore) (t : Nat), (∀ i ∈ idsOf s, i < t) →
    (idsOf s).Nodup → spaced t ops = true →
    (idsOf (run s ops)).Nodup := by
  induction ops with
  | nil => intro s t _ hnd _; exact hnd
  | cons op rest ih =>
      intro s t hb hnd hsp
      show (idsOf (run (step s op) rest)).Nodup
      cases op with
      | streamStart text now mint =>
          have hsp' : t ≤ now ∧ spaced (now + 2) rest = true := by
            simpa [spaced, opTime, Bool.and_eq_true] using hsp
          by_cases ht : jsTrim text = ""
          · have hstep : step s (.streamStart text now mint) = s := by
              simp [step, sendMessageStreamStart, ht]
            rw [hstep]
            refine ih s (now + 2) (fun i hi => ?_) hnd hsp'.2
            exact lt_of_lt_of_le (hb i hi)
              (le_trans hsp'.1 (Nat.le_add_right now 2))
          · have hids : idsOf (step s (.streamStart text now mint)) =
                idsOf s ++ [now, now + 1] := idsOf_streamStart s text now mint ht
            refine ih _ (now + 2) (fun i hi => ?_) ?_ hsp'.2
            · rw [hids] at hi
              rcases List.mem_append.mp hi with hi | hi
              · exact lt_of_lt_of_le (hb i hi)
                  (le_trans hsp'.1 (Nat.le_add_right now 2))
              · simp only [List.mem_cons, List.not_mem_nil, or_false] at hi
                omega
            · rw [hids, List.nodup_append]
              refine ⟨hnd, by simp, fun i hi hmem => ?_⟩
              have hlt : i < now := lt_of_lt_of_le (hb i hi) hsp'.1
              simp only [List.mem_cons, List.not_mem_nil, or_false] at hmem
              omega
      | frame aiMsgId f =>
          have hsp' : spaced t rest = true := by
            simpa [spaced, opTime] using hsp
          cases f with
          | token c =>
              have hids : idsOf (step s (.frame aiMsgId (.token c))) =
                  idsOf s := updateFirst_map_id s.messages aiMsgId
                    (fun m => { m with content := s.streamingMessage ++ c })
                    (fun m => rfl)
              exact ih _ t (by rw [hids]; exact hb)
                (by rw [hids]; exact hnd) hsp'
          | done sid intent =>
              have hids : idsOf (step s (.frame aiMsgId (.done sid intent))) =
                  idsOf s := updateFirst_map_id s.messages aiMsgId
                    (fun m => { m with streaming := false }) (fun m => rfl)
              exact ih _ t (by rw [hids]; exact hb) (by rw [hids]; exact hnd) hsp'
          | error d => exact ih _ t hb hnd hsp'
      | transportFail =>
          exact ih _ t hb hnd (by simpa [spaced, opTime] using hsp)
      | restStart text now =>
          have hsp' : t ≤ now ∧ spaced (now + 2) rest = true := by
            simpa [spaced, opTime, Bool.and_eq_true] using hsp
          by_cases ht : jsTrim text = ""
          · have hstep : step s (.restStart text now) = s := by
              simp [step, sendMessageRestStart, ht]
            rw [hstep]
            refine ih s (now + 2) (fun i hi => ?_) hnd hsp'.2
            exact lt_of_lt_of_le (hb i hi)
              (le_trans hsp'.1 (Nat.le_add_right now 2))
          · have hids : idsOf (step s (.restStart text now)) =
                idsOf s ++ [now] := idsOf_restStart s text now ht
            refine ih _ (now + 2) (fun i hi => ?_) ?_ hsp'.2
            · rw [hids] at hi
              rcases List.mem_append.mp hi with hi | hi
              · exact lt_of_lt_of_le (hb i hi)
                  (le_trans hsp'.1 (Nat.le_add_right now 2))
              · simp only [List.mem_singleton] at hi
                omega
            · rw [hids, List.nodup_append]
              refine ⟨hnd, by simp, fun i hi hmem => ?_⟩
              have hlt : i < now := lt_of_lt_of_le (hb i hi) hsp'.1
              simp only [List.mem_singleton] at hmem
              omega
      | restDone res now =>
          have hsp' : t ≤ now ∧ spaced (now + 2) rest = true := by
            simpa [spaced, opTime, Bool.and_eq_true] using hsp
          have hids : idsOf (step s (.restDone res now)) =
              idsOf s ++ [now] := idsOf_restDone s res now
          refine ih _ (now + 2) (fun i hi => ?_) ?_ hsp'.2
          · rw [hids] at hi
            rcases List.mem_append.mp hi with hi | hi
            · exact lt_of_lt_of_le (hb i hi)
                (le_trans hsp'.1 (Nat.le_add_right now 2))
            · simp only [List.mem_singleton] at hi
              omega
          · rw [hids, List.nodup_append]
            refine ⟨hnd, by simp, fun i hi hmem => ?_⟩
            have hlt : i < now := lt_of_lt_of_le (hb i hi) hsp'.1
            simp only [List.mem_singleton] at hmem
            omega
      | restFail =>
          exact ih _ t hb hnd (by simpa [spaced, opTime] using hsp)
      | clear ok =>
          refine ih _ t (fun i hi => ?_) ?_
            (by simpa [spaced, opTime] using hsp)
          · cases hi
          · exact List.nodup_nil
      | doLogout =>
          refine ih _ t (fun i hi => ?_) ?_
            (by simpa [spaced, opTime] using hsp)
          · cases hi
          · exact List.nodup_nil
      | doLogin tok u =>
          exact ih _ t hb hnd (by simpa [spaced, opTime] using hsp)

/-- C9 counterexample: two `sendMessageStream` calls whose `Date.now()`
readings coincide (same millisecond) append messages with colliding
ids — the id scheme is the raw timestamp, not a collision-free one. -/
theorem c9_counterexample :
    ¬ (idsOf (run initialStore
        [.streamStart "a" 5 "sess_1",
         .streamStart "b" 5 "sess_2"])).Nodup := by
  decide

/-- C9 amended: message ids are the operations' `Date.now()` readings
(the streaming placeholder takes reading + 1), so all ids in the log
are pairwise distinct provided successive id-minting operations read
clock values at least 2 apart; same-millisecond operations may
collide. -/
theorem c9_distinct_ids (ops : List Op) (t : Nat)
    (hsp : spaced t ops = true) :
    (idsOf (run initialStore ops)).Nodup :=
  run_ids_nodup ops initialStore t (fun i hi => by cases hi)
    List.nodup_nil hsp

/-- Witness for C9 amended: a full streaming turn, a second turn and a
REST turn, each id-minting operation 2 clock ticks after the last. -/
theorem c9_witness :
    (idsOf (run initialStore
        [.streamStart "第一" 0 "sess_1",
         .frame 1 (.token "好"),
         .frame 1 (.done "srv" none),
         .streamStart "第二" 2 "sess_2",
         .restStart "第三" 4,
         .restDone { session_id := "srv", reply := "答复",
                     intent := some "faq", rag_sources := none } 6])).Nodup :=
  c9_distinct_ids _ 0 (by decide)

end ChatClient
